import Mathlib

/-!
Verification of the missing-value analysis core of `dataprep`
(`dataprep/eda/missing/computation.py`), as a shallow embedding.

Modelling conventions:
* A cell is `Option Val`; `none` stands for the three equivalent absence
  markers (None / NaN / null), which is exactly what `pd.isnull` detects.
* A `Column` carries its name, its classified type (the result of the
  external `get_type` gate, an oracle attached to the column), and its cells.
* `pd_data_frame.values.T` of a pandas frame has shape (C, R): row `i` of the
  transposed matrix is data-frame column `i`.  `Table.isnullT` builds exactly
  that boolean matrix.
* Python float division of two ints is modelled over `ℚ`; `int / 0` raises
  `ZeroDivisionError`, modelled by `Option`/`Except` failure.
* Fallible pandas operations (`KeyError` from `dropna(subset=[x])` or from
  `df[[x, y]]` selection on an absent column) are modelled with `Except Err`.
-/

set_option autoImplicit false

namespace Dataprep

/-- A concrete cell value (numeric or categorical payload). -/
inductive Val where
  | vInt : Int → Val
  | vStr : String → Val
deriving DecidableEq

/-- The codomain of the external `get_type` column classifier: `num` is
`DataType.TYPE_NUM`, `cat` is `DataType.TYPE_CAT`, and `other` stands for
every remaining tag of the classifier. -/
inductive DataType where
  | num
  | cat
  | other
deriving DecidableEq

/-- A named data-frame column: its name, its classified type (the value the
external type gate returns for it), and its cells; `none` is a missing cell. -/
structure Column where
  name : String
  ctype : DataType
  cells : List (Option Val)
deriving DecidableEq

/-- Count of missing (None/NaN/null) cells of a column. -/
def Column.missingCount (c : Column) : Nat :=
  c.cells.countP (fun v => v.isNone)

/-- A pandas data frame: an ordered sequence of named columns. -/
structure Table where
  cols : List Column
deriving DecidableEq

/-- `list(pd_data_frame.columns)`. -/
def Table.colNames (df : Table) : List String :=
  df.cols.map (fun c => c.name)

/-- Number of rows R: pandas frames are rectangular, so R is the shared
length of all columns (read off the first column; 0 when there is none). -/
def Table.numRows (df : Table) : Nat :=
  match df.cols with
  | [] => 0
  | c :: _ => c.cells.length

/-- Number of columns C. -/
def Table.numCols (df : Table) : Nat :=
  df.cols.length

/-- Rectangularity invariant of a pandas frame: every column has length R. -/
def Table.WF (df : Table) : Prop :=
  ∀ c ∈ df.cols, c.cells.length = df.numRows

/-- `pd.isnull(pd_data_frame.values.T)`: the (C, R) boolean matrix whose row
`i` is data-frame column `i`, entry true iff the cell is missing. -/
def Table.isnullT (df : Table) : List (List Bool) :=
  df.cols.map (fun c => c.cells.map (fun v => v.isNone))

/-- First column whose name is `x` (`df[x]` / subset lookup). -/
def Table.findCol (df : Table) (x : String) : Option Column :=
  df.cols.find? (fun c => c.name == x)

/-- Error kinds surfaced by this core.  In the source all four are concrete
Python exceptions: `ValueError` for the type gate (`UnsupportedColumnType`)
and for y-without-x (`InvalidArguments`), `KeyError` from pandas for an
absent column name (`ColumnNotFound`), and `ZeroDivisionError` from the
per-entry rate division. -/
inductive Err where
  | unsupportedColumnType
  | columnNotFound
  | invalidArguments
  | zeroDivision
deriving DecidableEq

/-- The `result` payload of an `Intermediate`, one shape per analyzer:
the global analyzer stores `{"distribution": matrix, "count": rates}`, the
impact analyzers store `{"df_data_drop": frame, "columns_name": names}`. -/
inductive CalcResult where
  | nonzero (distribution : List (List Nat)) (count : List ℚ)
  | impact (dfDataDrop : Table) (columnsName : List String)
deriving DecidableEq

/-- The `raw_data` dictionary of an `Intermediate`: the input frame plus the
scalar arguments that produced the result (absent keys are `none`). -/
structure RawData where
  df : Table
  xName : Option String
  yName : Option String
  numBins : Option Nat
deriving DecidableEq

/-- The `Intermediate` result container of `dataprep.eda.common`. -/
structure Intermediate where
  result : CalcResult
  rawData : RawData
  visualType : String
deriving DecidableEq

/-- `np.count_nonzero` on a boolean vector: the number of `true` entries
(on the isnull matrix these are the missing cells). -/
def countNonzero (data : List Bool) : Nat :=
  data.countP id

/-- `_calc_nonzero_rate(data, length) = np.count_nonzero(data) / length`.
`np.count_nonzero` returns a Python int, so `length = 0` raises
`ZeroDivisionError`, modelled as `none`; otherwise the exact quotient. -/
def calc_nonzero_rate (data : List Bool) (length : Nat) : Option ℚ :=
  if length = 0 then none
  else some ((countNonzero data : ℚ) / (length : ℚ))

/-- `dask.compute(*delayed_list)`: gathers all per-entry results in order
and fails iff any task raised. -/
def computeAll : List (Option ℚ) → Option (List ℚ)
  | [] => some []
  | none :: _ => none
  | some q :: rest =>
    match computeAll rest with
    | none => none
    | some t => some (q :: t)

/-- Bool-to-int conversion `pd_data_frame_value * 1` applied entrywise. -/
def boolMatToNat (m : List (List Bool)) : List (List Nat) :=
  m.map (fun r => r.map (fun b => if b then 1 else 0))

/-- The `if/elif/elif/else` truncation chain of `_calc_nonzero_count`: the
matrix has shape (C, R), so `[:num_cols, :num_rows]` takes `num_cols` outer
entries (data-frame columns) and `num_rows` inner entries (rows). -/
def truncateDist (m : List (List Nat)) (num_rows num_cols : Option Nat) : List (List Nat) :=
  match num_rows, num_cols with
  | some nr, some nc => (m.take nc).map (fun r => r.take nr)
  | none, some nc => m.take nc
  | some nr, none => m.map (fun r => r.take nr)
  | none, none => m

/-- `_calc_nonzero_count(pd_data_frame, num_rows, num_cols)`: builds the
(C, R) isnull matrix, computes for every row `i` of that matrix (i.e. every
data-frame column) the rate `count_nonzero / R` in parallel delayed tasks,
gathers them in order, then truncates the 0/1 matrix for rendering.  The
`raw_data` dictionary holds only `df`. -/
def calc_nonzero_count (df : Table) (num_rows num_cols : Option Nat) :
    Except Err Intermediate :=
  match computeAll (df.isnullT.map (fun rowb => calc_nonzero_rate rowb df.numRows)) with
  | none => Except.error Err.zeroDivision
  | some counts =>
    Except.ok ⟨CalcResult.nonzero (truncateDist (boolMatToNat df.isnullT) num_rows num_cols) counts,
      ⟨df, none, none, none⟩, "dummy"⟩

/-- Row selection by a boolean mask: keep the cells at the positions where
the mask is true (the effect of `dropna(subset=[x])` on each column). -/
def maskFilter : List Bool → List (Option Val) → List (Option Val)
  | true :: ks, v :: vs => v :: maskFilter ks vs
  | false :: ks, _ :: vs => maskFilter ks vs
  | _, _ => []

/-- Apply the row mask to one column (name and type are untouched). -/
def maskCol (keep : List Bool) (c : Column) : Column :=
  ⟨c.name, c.ctype, maskFilter keep c.cells⟩

/-- `pd_data_frame.dropna(subset=[x])`: raises `KeyError` when `x` is not a
column; otherwise returns a new frame keeping exactly the rows where column
`x` is present.  (Default `inplace=False`: the input frame is untouched.) -/
def Table.dropnaSubset (df : Table) (x : String) : Except Err Table :=
  match df.findCol x with
  | none => Except.error Err.columnNotFound
  | some cx =>
    let keep := cx.cells.map (fun v => v.isSome)
    Except.ok ⟨df.cols.map (fun c => maskCol keep c)⟩

/-- `_calc_missing_impact(pd_data_frame, x_name, num_bins)`: drop the rows
where `x_name` is missing, and list all column names except `x_name`
(`list.remove` deletes the first occurrence, preserving the rest in order). -/
def calc_missing_impact (df : Table) (x_name : String) (num_bins : Nat) :
    Except Err Intermediate :=
  match df.dropnaSubset x_name with
  | Except.error e => Except.error e
  | Except.ok dfDataDrop =>
    let columnsName := df.colNames.erase x_name
    Except.ok ⟨CalcResult.impact dfDataDrop columnsName,
      ⟨df, some x_name, none, some num_bins⟩, "dummy"⟩

/-- `_calc_missing_impact_y(pd_data_frame, x_name, y_name, num_bins)`:
`df[[x_name, y_name]]` narrows to the two designated columns (raising
`KeyError` when either is absent), then rows with `x_name` missing are
dropped, and `columns_name = list(df_data_drop.columns)` — the names of the
*narrowed* frame, i.e. both `x_name` and `y_name`. -/
def calc_missing_impact_y (df : Table) (x_name y_name : String) (num_bins : Nat) :
    Except Err Intermediate :=
  match df.findCol x_name, df.findCol y_name with
  | some cx, some cy =>
    let sel : Table := ⟨[cx, cy]⟩
    match sel.dropnaSubset x_name with
    | Except.error e => Except.error e
    | Except.ok dfDataDrop =>
      Except.ok ⟨CalcResult.impact dfDataDrop dfDataDrop.colNames,
        ⟨df, some x_name, some y_name, some num_bins⟩, "dummy"⟩
  | _, _ => Except.error Err.columnNotFound

/-- The type-gate predicate of `plot_missing`: true when `get_type` of the
column is neither `TYPE_NUM` nor `TYPE_CAT`. -/
def badType (c : Column) : Bool :=
  c.ctype != DataType.num && c.ctype != DataType.cat

/-- `plot_missing(pd_data_frame, x_name, y_name, num_rows, num_cols)`:
first every column is checked against the type gate (raising on the first
unsupported column, before any analyzer runs), then the (x, y) shape picks
the analyzer.  The calls to `_calc_missing_impact` /
`_calc_missing_impact_y` pass no `num_bins`, so the default 10 applies.
Rendering (`_vis_*`, `show`) is an external collaborator consuming the
intermediate unchanged; the embedding returns the intermediate itself. -/
def plot_missing (df : Table) (x_name y_name : Option String)
    (num_rows num_cols : Option Nat) : Except Err Intermediate :=
  if df.cols.any badType then Except.error Err.unsupportedColumnType
  else
    match x_name, y_name with
    | some x, some y => calc_missing_impact_y df x y 10
    | some x, none => calc_missing_impact df x 10
    | none, some _ => Except.error Err.invalidArguments
    | none, none => calc_nonzero_count df num_rows num_cols

/-!
State-threaded versions of the four operations, for the frame property:
the second component is the state of the caller's table after the call.
In the source no statement assigns to `pd_data_frame` and no pandas call on
it is inplace: `pd.isnull(df.values.T)` and `* 1` allocate fresh arrays,
`dropna(subset=[...])` uses the default `inplace=False` and returns a copy,
`df[[x, y]]` returns a new frame, and `list(df.columns)` copies the names
(`columns_name.remove(x)` mutates only that fresh list).  The table is
therefore returned unchanged, on success and on failure alike.
-/

/-- `_calc_nonzero_count` with the final state of the caller's table. -/
def calc_nonzero_countSt (df : Table) (num_rows num_cols : Option Nat) :
    Except Err Intermediate × Table :=
  (calc_nonzero_count df num_rows num_cols, df)

/-- `_calc_missing_impact` with the final state of the caller's table. -/
def calc_missing_impactSt (df : Table) (x_name : String) (num_bins : Nat) :
    Except Err Intermediate × Table :=
  (calc_missing_impact df x_name num_bins, df)

/-- `_calc_missing_impact_y` with the final state of the caller's table. -/
def calc_missing_impact_ySt (df : Table) (x_name y_name : String) (num_bins : Nat) :
    Except Err Intermediate × Table :=
  (calc_missing_impact_y df x_name y_name num_bins, df)

/-- `plot_missing` with the final state of the caller's table. -/
def plot_missingSt (df : Table) (x_name y_name : Option String)
    (num_rows num_cols : Option Nat) : Except Err Intermediate × Table :=
  (plot_missing df x_name y_name num_rows num_cols, df)

/-- The `count` list of a global-analysis result (empty on error or on an
impact-shaped result). -/
def countOf : Except Err Intermediate → List ℚ
  | Except.ok ⟨CalcResult.nonzero _ c, _, _⟩ => c
  | _ => []

/-- The `distribution` matrix of a global-analysis result. -/
def distOf : Except Err Intermediate → List (List Nat)
  | Except.ok ⟨CalcResult.nonzero d _, _, _⟩ => d
  | _ => []

/-- The `columns_name` list of an impact-analysis result. -/
def namesOf : Except Err Intermediate → Option (List String)
  | Except.ok ⟨CalcResult.impact _ ns, _, _⟩ => some ns
  | _ => none

/-- The `df_data_drop` frame of an impact-analysis result. -/
def droppedOf : Except Err Intermediate → Option Table
  | Except.ok ⟨CalcResult.impact t _, _, _⟩ => some t
  | _ => none

/-- The `num_bins` entry of the `raw_data` of a result. -/
def numBinsOf : Except Err Intermediate → Option Nat
  | Except.ok i => i.rawData.numBins
  | Except.error _ => none

/-- Whether a call succeeded. -/
def isOkE : Except Err Intermediate → Bool
  | Except.ok _ => true
  | Except.error _ => false

/-- Column A = [1, None, 3] of the spec's concrete scenario. -/
def colA : Column :=
  ⟨"A", DataType.num, [some (Val.vInt 1), none, some (Val.vInt 3)]⟩

/-- Column B = [None, 2, 3] of the spec's concrete scenario. -/
def colB : Column :=
  ⟨"B", DataType.num, [none, some (Val.vInt 2), some (Val.vInt 3)]⟩

/-- The spec's concrete scenario table: A = [1, None, 3], B = [None, 2, 3]. -/
def tblAB : Table :=
  ⟨[colA, colB]⟩

/-- A table with one column and zero rows (R = 0, C = 1). -/
def tblEmpty : Table :=
  ⟨[⟨"A", DataType.num, []⟩]⟩

/-- A one-column table whose column classifies as neither numeric nor
categorical. -/
def tblBad : Table :=
  ⟨[⟨"A", DataType.other, [some (Val.vInt 1)]⟩]⟩

/-- A two-column table with zero rows (R = 0, C = 2). -/
def tblEmpty2 : Table :=
  ⟨[⟨"A", DataType.num, []⟩, ⟨"B", DataType.cat, []⟩]⟩

deriving instance DecidableEq for Except

instance (df : Table) : Decidable df.WF :=
  inferInstanceAs (Decidable (∀ c ∈ df.cols, c.cells.length = df.numRows))

/-! ## Helper lemmas -/

theorem computeAll_map_some {α : Type} (g : α → ℚ) (l : List α) :
    computeAll (l.map (fun a => some (g a))) = some (l.map g) := by
  induction l with
  | nil => rfl
  | cons a t ih => simp [computeAll, ih]

/-- With a nonzero row count every per-column rate task succeeds, and the
gathered `count` list is the per-column missing fraction, independent of the
truncation caps. -/
theorem countOf_calc_nonzero_count (df : Table) (m k : Option Nat) (hR : df.numRows ≠ 0) :
    countOf (calc_nonzero_count df m k) =
      df.cols.map (fun c => (c.missingCount : ℚ) / (df.numRows : ℚ)) := by
  have h0 : (fun rowb : List Bool => calc_nonzero_rate rowb df.numRows)
      = fun rowb => some ((countNonzero rowb : ℚ) / (df.numRows : ℚ)) := by
    funext rowb
    simp [calc_nonzero_rate, hR]
  have h1 : computeAll (df.isnullT.map (fun rowb => calc_nonzero_rate rowb df.numRows))
      = some (df.isnullT.map (fun rowb => (countNonzero rowb : ℚ) / (df.numRows : ℚ))) := by
    rw [h0, computeAll_map_some]
  simp only [calc_nonzero_count, h1]
  simp [countOf, Table.isnullT, List.map_map, Function.comp, countNonzero,
    List.countP_map, Column.missingCount]

/-! ## Claim theorems -/

/-- C1, counterexample: on the spec's own scenario table (A = [1, None, 3],
B = [None, 2, 3], so R = 3), the sequence returned by the Global Missingness
Analyzer has 2 entries (one per column), not 3, its value is the per-column
missing fraction [1/3, 1/3], and it is not the claimed per-row density
sequence [0.5, 0.5, 1.0]. -/
theorem c1_per_row_density_counterexample :
    (countOf (calc_nonzero_count tblAB none none)).length = 2 ∧
    tblAB.numRows = 3 ∧
    countOf (calc_nonzero_count tblAB none none) = [1/3, 1/3] ∧
    countOf (calc_nonzero_count tblAB none none) ≠ [1/2, 1/2, 1] := by
  have hval : countOf (calc_nonzero_count tblAB none none) = [1/3, 1/3] := by
    rw [countOf_calc_nonzero_count tblAB none none (by decide)]
    norm_num [tblAB, colA, colB, Column.missingCount, Table.numRows,
      List.countP, List.countP.go]
  refine ⟨by decide, by decide, hval, fun h => ?_⟩
  rw [hval] at h
  simp at h

/-- C1, amended: for every rectangular table with R > 0 rows, the Global
Missingness Analyzer's rate sequence has exactly C entries (one per column,
not one per row), each in [0, 1]; entry c equals the fraction of rows
missing at column c (not 1 minus the fraction of columns missing at a row);
the sequence is independent of any num_rows/num_cols truncation argument. -/
theorem c1_rate_sequence_amended (df : Table) (m k : Option Nat)
    (hwf : df.WF) (hR : 0 < df.numRows) :
    (countOf (calc_nonzero_count df m k)).length = df.numCols ∧
    (∀ q ∈ countOf (calc_nonzero_count df m k), 0 ≤ q ∧ q ≤ 1) ∧
    (∀ i : Nat, (countOf (calc_nonzero_count df m k))[i]? =
      (df.cols[i]?).map (fun c => (c.missingCount : ℚ) / (df.numRows : ℚ))) ∧
    countOf (calc_nonzero_count df m k) = countOf (calc_nonzero_count df none none) := by
  have hR' : df.numRows ≠ 0 := hR.ne'
  rw [countOf_calc_nonzero_count df m k hR', countOf_calc_nonzero_count df none none hR']
  refine ⟨by simp [Table.numCols], ?_, ?_, rfl⟩
  · intro q hq
    obtain ⟨c, hc, rfl⟩ := List.mem_map.mp hq
    refine ⟨by positivity, ?_⟩
    rw [div_le_one (by exact_mod_cast hR)]
    exact_mod_cast (hwf c hc ▸ List.countP_le_length _)
  · intro i
    simp [List.getElem?_map]

theorem c1_rate_sequence_amended_witness :
    (countOf (calc_nonzero_count tblAB none none)).length = tblAB.numCols :=
  (c1_rate_sequence_amended tblAB none none (by decide) (by decide)).1

/-- C3, counterexample: on a table with one column and zero rows the Global
Missingness Analyzer does not return empty outputs without error — the rate
task divides `count_nonzero` by a length of 0 and the call fails with a
ZeroDivisionError. -/
theorem c3_empty_table_counterexample :
    calc_nonzero_count tblEmpty none none = Except.error Err.zeroDivision := by
  decide

/-- C3, amended: for every table with zero rows and at least one column, the
Global Missingness Analyzer fails with a ZeroDivisionError (each per-column
rate task computes count / 0); it does not return an empty density sequence. -/
theorem c3_empty_table_amended (df : Table) (m k : Option Nat)
    (h0 : df.numRows = 0) (hne : df.cols ≠ []) :
    calc_nonzero_count df m k = Except.error Err.zeroDivision := by
  obtain ⟨cols⟩ := df
  cases cols with
  | nil => exact absurd rfl hne
  | cons c t =>
    simp only [Table.numRows] at h0
    simp [calc_nonzero_count, Table.isnullT, calc_nonzero_rate, Table.numRows, h0, computeAll]

theorem c3_empty_table_amended_witness :
    calc_nonzero_count tblEmpty2 none none = Except.error Err.zeroDivision :=
  c3_empty_table_amended tblEmpty2 none none (by decide) (by decide)

/-- C6: for every table, any optional row cap m, and any column cap k ≤ C,
the (possibly row-truncated) presence matrix truncated to k columns equals
the first k columns of the matrix without the column cap, and the count
output is identical under every combination of truncation arguments. -/
theorem c6_truncation (df : Table) (m : Option Nat) (k : Nat) (hk : k ≤ df.numCols) :
    distOf (calc_nonzero_count df m (some k)) =
      (distOf (calc_nonzero_count df m none)).take k ∧
    (∀ m2 k2 : Option Nat,
      countOf (calc_nonzero_count df m2 k2) = countOf (calc_nonzero_count df none none)) := by
  constructor
  · cases h : computeAll (df.isnullT.map (fun rowb => calc_nonzero_rate rowb df.numRows)) with
    | none => simp [calc_nonzero_count, h, distOf]
    | some counts =>
      cases m with
      | none => simp [calc_nonzero_count, h, distOf, truncateDist]
      | some nr => simp [calc_nonzero_count, h, distOf, truncateDist, List.map_take]
  · intro m2 k2
    cases h : computeAll (df.isnullT.map (fun rowb => calc_nonzero_rate rowb df.numRows)) with
    | none => simp [calc_nonzero_count, h, countOf]
    | some counts => simp [calc_nonzero_count, h, countOf]

theorem c6_truncation_witness :
    distOf (calc_nonzero_count tblAB none (some 1)) =
      (distOf (calc_nonzero_count tblAB none none)).take 1 :=
  (c6_truncation tblAB none 1 (by decide)).1

/-- Masking a column by its own presence mask keeps only present cells. -/
theorem maskFilter_present (l : List (Option Val)) :
    ∀ v ∈ maskFilter (l.map (fun o => o.isSome)) l, v.isSome = true := by
  induction l with
  | nil => simp [maskFilter]
  | cons o t ih =>
    cases o with
    | none => simpa [maskFilter] using ih
    | some a =>
      intro v hv
      rcases (by simpa [maskFilter] using hv : v = some a ∨ v ∈ maskFilter (t.map _) t) with h | h
      · simp [h]
      · exact ih v h

/-- `find?` by name commutes with row masking, since masking keeps names. -/
theorem find?_map_maskCol (keep : List Bool) (x : String) (l : List Column) :
    (l.map (fun c => maskCol keep c)).find? (fun c => c.name == x)
      = (l.find? (fun c => c.name == x)).map (fun c => maskCol keep c) := by
  induction l with
  | nil => rfl
  | cons c t ih =>
    cases hc : (c.name == x) with
    | true => simp [List.find?, maskCol, hc]
    | false => simpa [List.find?, maskCol, hc] using ih

/-- A name absent from the column-name list is not found. -/
theorem findCol_eq_none (df : Table) (x : String) (h : x ∉ df.colNames) :
    df.findCol x = none := by
  rw [Table.findCol, List.find?_eq_none]
  intro c hc hbe
  exact h (List.mem_map.mpr ⟨c, hc, eq_of_beq hbe⟩)

/-- C2, counterexample: on the scenario table with x = "A", y = "B" the
Two-Column Impact Analyzer's column-name list is ["A", "B"]
(`list(df_data_drop.columns)` of the two-column frame), not the claimed
["B"]. -/
theorem c2_name_list_counterexample :
    namesOf (calc_missing_impact_y tblAB "A" "B" 10) = some ["A", "B"] ∧
    namesOf (calc_missing_impact_y tblAB "A" "B" 10) ≠ some ["B"] := by
  constructor
  · decide
  · decide

/-- C2, amended: for every table and distinct column names x and y both
present, the Two-Column Impact Analyzer returns a filtered table with
exactly the two columns x and y (in that order), in which every row has a
present value in x, and a column-name list that is exactly [x, y] (both
selected columns, not just [y]). -/
theorem c2_two_column_amended (df : Table) (x y : String) (nb : Nat)
    (hxy : x ≠ y) (cx cy : Column)
    (hx : df.findCol x = some cx) (hy : df.findCol y = some cy) :
    namesOf (calc_missing_impact_y df x y nb) = some [x, y] ∧
    (droppedOf (calc_missing_impact_y df x y nb)).map Table.colNames = some [x, y] ∧
    (∀ t c, droppedOf (calc_missing_impact_y df x y nb) = some t →
      t.findCol x = some c → ∀ v ∈ c.cells, v.isSome = true) := by
  have hfx : List.find? (fun c => c.name == x) df.cols = some cx := by
    simpa [Table.findCol] using hx
  have hfy : List.find? (fun c => c.name == y) df.cols = some cy := by
    simpa [Table.findCol] using hy
  have hbx := List.find?_some hfx
  have hby := List.find?_some hfy
  have hcx : cx.name = x := eq_of_beq hbx
  have hcy : cy.name = y := eq_of_beq hby
  have hsel : Table.findCol ⟨[cx, cy]⟩ x = some cx := by
    simp [Table.findCol, List.find?, hcx]
  have hrun : calc_missing_impact_y df x y nb =
      Except.ok ⟨CalcResult.impact
        ⟨[maskCol (cx.cells.map (fun v => v.isSome)) cx,
          maskCol (cx.cells.map (fun v => v.isSome)) cy]⟩
        [cx.name, cy.name],
        ⟨df, some x, some y, some nb⟩, "dummy"⟩ := by
    simp [calc_missing_impact_y, hx, hy, Table.dropnaSubset, hsel, Table.colNames, maskCol]
  refine ⟨?_, ?_, ?_⟩
  · simp [hrun, namesOf, hcx, hcy]
  · simp [hrun, droppedOf, Table.colNames, maskCol, hcx, hcy]
  · intro t c ht hc
    rw [hrun] at ht
    simp only [droppedOf, Option.some.injEq] at ht
    subst ht
    simp only [Table.findCol, List.find?, maskCol, hcx, beq_self_eq_true,
      Option.some.injEq] at hc
    subst hc
    simpa using maskFilter_present cx.cells

theorem c2_two_column_amended_witness :
    namesOf (calc_missing_impact_y tblAB "A" "B" 10) = some ["A", "B"] :=
  (c2_two_column_amended tblAB "A" "B" 10 (by decide) colA colB (by decide) (by decide)).1

/-- C7: for every table with distinct column names and every column name x
present in it, the Single-Column Impact Analyzer returns a filtered table
whose x column contains only present values, and a column-name list equal to
the original list with exactly x removed — length C − 1, excluding x, and
preserving the original order of the remaining names. -/
theorem c7_single_impact (df : Table) (x : String) (nb : Nat) (cx : Column)
    (hx : df.findCol x = some cx) (hnd : df.colNames.Nodup) :
    namesOf (calc_missing_impact df x nb) = some (df.colNames.erase x) ∧
    (df.colNames.erase x).length = df.numCols - 1 ∧
    x ∉ df.colNames.erase x ∧
    df.colNames.erase x = df.colNames.filter (fun n => n != x) ∧
    (∀ t c, droppedOf (calc_missing_impact df x nb) = some t →
      t.findCol x = some c → ∀ v ∈ c.cells, v.isSome = true) := by
  have hfx : List.find? (fun c => c.name == x) df.cols = some cx := by
    simpa [Table.findCol] using hx
  have hbx := List.find?_some hfx
  have hcx : cx.name = x := eq_of_beq hbx
  have hmem : x ∈ df.colNames :=
    List.mem_map.mpr ⟨cx, List.mem_of_find?_eq_some hfx, hcx⟩
  have hrun : calc_missing_impact df x nb =
      Except.ok ⟨CalcResult.impact
        ⟨df.cols.map (fun c => maskCol (cx.cells.map (fun v => v.isSome)) c)⟩
        (df.colNames.erase x),
        ⟨df, some x, none, some nb⟩, "dummy"⟩ := by
    simp [calc_missing_impact, Table.dropnaSubset, hx]
  refine ⟨?_, ?_, ?_, ?_, ?_⟩
  · simp [hrun, namesOf]
  · rw [List.length_erase_of_mem hmem]
    simp [Table.colNames, Table.numCols]
  · intro h
    exact absurd rfl ((hnd.mem_erase_iff.mp h).1)
  · exact hnd.erase_eq_filter x
  · intro t c ht hc v hv
    rw [hrun] at ht
    simp only [droppedOf, Option.some.injEq] at ht
    subst ht
    rw [Table.findCol, find?_map_maskCol, hfx] at hc
    cases hc
    exact maskFilter_present cx.cells v hv

theorem c7_single_impact_witness :
    namesOf (calc_missing_impact tblAB "A" 10) = some (tblAB.colNames.erase "A") :=
  (c7_single_impact tblAB "A" 10 colA (by decide) (by decide)).1

/-- C8: the Single-Column Impact Analyzer fails with ColumnNotFound whenever
x is not a column of the table, and the Two-Column Impact Analyzer fails
with ColumnNotFound whenever x or y is not a column of the table. -/
theorem c8_column_not_found (df : Table) (x y : String) (nb : Nat) :
    (x ∉ df.colNames → calc_missing_impact df x nb = Except.error Err.columnNotFound) ∧
    ((x ∉ df.colNames ∨ y ∉ df.colNames) →
      calc_missing_impact_y df x y nb = Except.error Err.columnNotFound) := by
  constructor
  · intro hx
    simp [calc_missing_impact, Table.dropnaSubset, findCol_eq_none df x hx]
  · rintro (hx | hy)
    · cases hfy : df.findCol y with
      | none => simp [calc_missing_impact_y, findCol_eq_none df x hx, hfy]
      | some cy => simp [calc_missing_impact_y, findCol_eq_none df x hx, hfy]
    · cases hfx : df.findCol x with
      | none => simp [calc_missing_impact_y, findCol_eq_none df y hy, hfx]
      | some cx => simp [calc_missing_impact_y, findCol_eq_none df y hy, hfx]

theorem c8_column_not_found_witness :
    calc_missing_impact tblAB "Z" 10 = Except.error Err.columnNotFound ∧
    calc_missing_impact_y tblAB "A" "Z" 10 = Except.error Err.columnNotFound :=
  ⟨(c8_column_not_found tblAB "Z" "Z" 10).1 (by decide),
   (c8_column_not_found tblAB "A" "Z" 10).2 (Or.inr (by decide))⟩

/-- C4, counterexample: for a table whose only column classifies as neither
NUMERIC nor CATEGORICAL, calling the dispatcher with x absent and y present
fails with UnsupportedColumnType — the type gate fires before the argument
check — and not with the claimed InvalidArguments. -/
theorem c4_dispatch_counterexample :
    plot_missing tblBad none (some "B") none none =
      Except.error Err.unsupportedColumnType ∧
    plot_missing tblBad none (some "B") none none ≠
      Except.error Err.invalidArguments := by
  constructor
  · decide
  · decide

/-- C4, amended: with x absent and y present the dispatcher fails with
InvalidArguments for every table all of whose columns classify as NUMERIC or
CATEGORICAL; when some column classifies otherwise the call fails with
UnsupportedColumnType instead, because the column type gate runs first. -/
theorem c4_dispatch_amended (df : Table) (y : String) (m k : Option Nat) :
    (df.cols.any badType = false →
      plot_missing df none (some y) m k = Except.error Err.invalidArguments) ∧
    (df.cols.any badType = true →
      plot_missing df none (some y) m k = Except.error Err.unsupportedColumnType) := by
  constructor
  · intro h
    simp [plot_missing, h]
  · intro h
    simp [plot_missing, h]

theorem c4_dispatch_amended_witness :
    plot_missing tblAB none (some "B") none none = Except.error Err.invalidArguments :=
  (c4_dispatch_amended tblAB "B" none none).1 (by decide)

/-- C5: for every table with at least one column whose classified type is
neither NUMERIC nor CATEGORICAL, the dispatcher's output is exactly the
UnsupportedColumnType error for every combination of the x/y arguments and
caps — no analyzer runs and no analysis result is computed. -/
theorem c5_type_gate (df : Table) (x y : Option String) (m k : Option Nat)
    (h : ∃ c ∈ df.cols, badType c = true) :
    plot_missing df x y m k = Except.error Err.unsupportedColumnType := by
  obtain ⟨c, hc, hbad⟩ := h
  simp [plot_missing, List.any_eq_true.mpr ⟨c, hc, hbad⟩]

theorem c5_type_gate_witness :
    plot_missing tblBad (some "A") none none none =
      Except.error Err.unsupportedColumnType :=
  c5_type_gate tblBad (some "A") none none none (by decide)

/-- C9: no operation of the core mutates the caller's table — for every call
to any of the three analyzers or to the dispatcher, succeeding or failing,
the table state after the call equals the input table. -/
theorem c9_no_mutation (df : Table) (x y : String) (xo yo : Option String)
    (nb : Nat) (m k : Option Nat) :
    (calc_nonzero_countSt df m k).2 = df ∧
    (calc_missing_impactSt df x nb).2 = df ∧
    (calc_missing_impact_ySt df x y nb).2 = df ∧
    (plot_missingSt df xo yo m k).2 = df :=
  ⟨rfl, rfl, rfl, rfl⟩

/-- C10: whenever the public entry point is called with x given (with or
without y) and the call succeeds, the bin count recorded in the returned
intermediate result's raw data is exactly 10: the entry point exposes no
num_bins parameter, so the analyzer default is always used. -/
theorem c10_num_bins (df : Table) (x : String) (y : Option String) (m k : Option Nat)
    (h : isOkE (plot_missing df (some x) y m k) = true) :
    numBinsOf (plot_missing df (some x) y m k) = some 10 := by
  cases hb : df.cols.any badType with
  | true => simp [plot_missing, hb, isOkE] at h
  | false =>
    cases y with
    | none =>
      cases hfx : df.findCol x with
      | none =>
        simp [plot_missing, hb, calc_missing_impact, Table.dropnaSubset, hfx, isOkE] at h
      | some cx =>
        simp [plot_missing, hb, calc_missing_impact, Table.dropnaSubset, hfx, numBinsOf]
    | some yv =>
      cases hfx : df.findCol x with
      | none =>
        simp [plot_missing, hb, calc_missing_impact_y, hfx, isOkE] at h
      | some cx =>
        cases hfy : df.findCol yv with
        | none =>
          simp [plot_missing, hb, calc_missing_impact_y, hfx, hfy, isOkE] at h
        | some cy =>
          have hfx' : List.find? (fun c => c.name == x) df.cols = some cx := by
            simpa [Table.findCol] using hfx
          have hfy' : List.find? (fun c => c.name == yv) df.cols = some cy := by
            simpa [Table.findCol] using hfy
          have hbx := List.find?_some hfx'
          have hcx : cx.name = x := eq_of_beq hbx
          simp [plot_missing, hb, calc_missing_impact_y, hfx', hfy', Table.dropnaSubset,
            Table.findCol, List.find?, hcx, numBinsOf]

theorem c10_num_bins_witness :
    numBinsOf (plot_missing tblAB (some "A") none none none) = some 10 :=
  c10_num_bins tblAB "A" none none none (by decide)

end Dataprep
